/-
Verification of the uProtocol Zenoh RPC client (`lib/src/zenohRpcClient.cpp`)
against its natural-language specification.

Shallow embedding: the client's lifecycle management (`init`/`term`), the
invocation dispatcher (`invokeMethod`) and the reply collector (`handleReply`)
are translated into pure Lean functions.  External collaborators (the Zenoh
transport, the up-cpp URI serializer, protobuf serialization of `UAttributes`)
are modelled by concrete executable stand-ins, faithful to the fields and
control flow the client depends on.  Machine integers are modelled as `Nat`
(bytes as `Nat` values) and the reference counter as `Int` so that underflow
is observable.
-/
import Mathlib

namespace ZenohRpc

/-! ## Enumerations (from up-core-api protobuf definitions)

Numeric values follow the protobuf enum values used by the C++ comparison
`UPriority::UPRIORITY_CS4 > options.priority()`. -/

/-- uProtocol priority classes (uattributes.pb): UNSPECIFIED = 0, CS0 = 1, …, CS6 = 7. -/
inductive UPriority
  | UNSPECIFIED | CS0 | CS1 | CS2 | CS3 | CS4 | CS5 | CS6
  deriving DecidableEq, Repr

/-- The protobuf numeric value of a priority, used by enum comparisons. -/
def UPriority.toNat : UPriority → Nat
  | .UNSPECIFIED => 0
  | .CS0 => 1
  | .CS1 => 2
  | .CS2 => 3
  | .CS3 => 4
  | .CS4 => 5
  | .CS5 => 6
  | .CS6 => 7

/-- Partial inverse of `UPriority.toNat`, used when deserializing. -/
def UPriority.fromNat : Nat → Option UPriority
  | 0 => some .UNSPECIFIED
  | 1 => some .CS0
  | 2 => some .CS1
  | 3 => some .CS2
  | 4 => some .CS3
  | 5 => some .CS4
  | 6 => some .CS5
  | 7 => some .CS6
  | _ => none


/-- uProtocol message types (uattributes.pb). -/
inductive UMessageType
  | UNSPECIFIED | PUBLISH | REQUEST | RESPONSE
  deriving DecidableEq, Repr

/-- The protobuf numeric value of a message type. -/
def UMessageType.toNat : UMessageType → Nat
  | .UNSPECIFIED => 0
  | .PUBLISH => 1
  | .REQUEST => 2
  | .RESPONSE => 3

/-- Partial inverse of `UMessageType.toNat`. -/
def UMessageType.fromNat : Nat → Option UMessageType
  | 0 => some .UNSPECIFIED
  | 1 => some .PUBLISH
  | 2 => some .REQUEST
  | 3 => some .RESPONSE
  | _ => none


/-! ## Bytes

A byte string is a `List Nat`; `natToBytes` writes a natural number as
little-endian base-256 digits (fuel-structured so the kernel can evaluate it). -/

/-- Little-endian base-256 digits of `n`, with `fuel ≥ n` guaranteeing termination. -/
def natToBytesAux : Nat → Nat → List Nat
  | 0, _ => []
  | fuel + 1, n => if n = 0 then [] else n % 256 :: natToBytesAux fuel (n / 256)

/-- Little-endian base-256 byte encoding of a natural number (`[]` encodes 0). -/
def natToBytes (n : Nat) : List Nat := natToBytesAux n n

/-- Decode a little-endian base-256 byte list back to a natural number. -/
def bytesToNat : List Nat → Nat
  | [] => 0
  | b :: rest => b + 256 * bytesToNat rest



/-! ## The Metadata Record (`UAttributes`)

The client builds a `UAttributes` record per call
(`UAttributesBuilder(uuid, UMESSAGE_TYPE_REQUEST, …)` + `setPriority` +
optional `setTTL`), serializes it with protobuf (`SerializeToArray`) and the
reply collector parses it back (`ParseFromArray`). -/

/-- The Metadata Record carried out-of-band with each request and reply:
unique call id (UUID, modelled as `Nat`), message type, priority and optional
time-to-live in milliseconds. -/
structure UAttributes where
  id : Nat
  type : UMessageType
  priority : UPriority
  ttl : Option Nat
  deriving DecidableEq, Repr

/-- Modelled from the spec: the serialized Metadata Record ("serializes the
record to bytes").  The protobuf wire encoding lives in up-core-api, outside
this repository's sources; this model writes the record's fields — priority,
message type, a ttl-presence tag, a length-prefixed ttl when present, and the
unique id — as a flat byte list. -/
def serializeAttributes (a : UAttributes) : List Nat :=
  match a.ttl with
  | none => a.priority.toNat :: a.type.toNat :: 0 :: natToBytes a.id
  | some t =>
      a.priority.toNat :: a.type.toNat :: 1 :: (natToBytes t).length ::
        (natToBytes t ++ natToBytes a.id)

/-- Modelled from the spec: deserialization of the Metadata Record
(`ParseFromArray`); inverse of `serializeAttributes`, `none` on malformed
bytes. -/
def parseAttributes : List Nat → Option UAttributes
  | p :: ty :: 0 :: rest =>
      match UPriority.fromNat p, UMessageType.fromNat ty with
      | some pr, some t => some ⟨bytesToNat rest, t, pr, none⟩
      | _, _ => none
  | p :: ty :: 1 :: len :: rest =>
      match UPriority.fromNat p, UMessageType.fromNat ty with
      | some pr, some t =>
          some ⟨bytesToNat (rest.drop len), t, pr, some (bytesToNat (rest.take len))⟩
      | _, _ => none
  | _ => none


/-! ## Reply collector (`ZenohRpcClient::handleReply`)

A reply channel is a list of entries as the transport delivers them; the
`while (z_call(channel->recv, &reply), z_check(reply))` loop consumes them in
order, an empty remainder modelling `z_check(reply)` false (channel exhausted
or timed out).  Resource operations are recorded in a trace of actions. -/

/-- The payload tag of a `UPayload` (up-cpp `UPayloadType`). -/
inductive UPayloadType
  | VALUE | REFERENCE | SHARED | UNDEFINED
  deriving DecidableEq, Repr

/-- An up-cpp `UPayload`: raw bytes plus a tag.  An empty `data` list models a
zero-length / null payload. -/
structure UPayload where
  data : List Nat
  ptype : UPayloadType
  deriving DecidableEq, Repr

/-- An up-cpp `UMessage`; default-constructed with neither payload nor
attributes set. -/
structure UMessage where
  payload : Option UPayload
  attributes : Option UAttributes
  deriving DecidableEq, Repr

/-- The default-constructed `UMessage` (the local `message` at the top of
`handleReply`). -/
def defaultUMessage : UMessage := ⟨none, none⟩

/-- A Zenoh sample carried by an OK reply: payload bytes and the optional
out-of-band attachment, a key/byte-string map.  `attachment = none` models
`z_check(sample.attachment)` false. -/
structure Sample where
  payload : List Nat
  attachment : Option (List (String × List Nat))
  deriving DecidableEq, Repr

/-- One entry of the reply channel: either a transport-level error
(`z_reply_is_ok` false) or an OK reply carrying a sample. -/
inductive ReplyEntry
  | err
  | ok (s : Sample)
  deriving DecidableEq, Repr

/-- Resource actions performed by `handleReply`, in order: a `z_call` on the
channel's `recv`, `z_drop(z_move(reply))`, `z_drop` of the channel, and
`delete channel`. -/
inductive Act
  | callRecv | dropReply | dropChannel | freeChannel
  deriving DecidableEq, Repr

/-- The per-entry validation of `handleReply` (lines 223–244): empty payload,
missing attachment, missing/empty `"attributes"` entry, or a parse failure
each reject the sample; otherwise the deserialized Metadata Record is
returned.  (`z_attachment_get` reports a missing key as zero-length bytes;
the model's failed lookup covers that branch together with the explicit
zero-length check.) -/
def acceptSample (s : Sample) : Option UAttributes :=
  if s.payload = [] then none
  else
    match s.attachment with
    | none => none
    | some att =>
        match att.lookup "attributes" with
        | none => none
        | some bytes => if bytes = [] then none else parseAttributes bytes

/-- The Result Message an accepted sample yields: payload tagged `VALUE` plus
the deserialized Metadata Record (lines 246–249). -/
def sampleMessage (s : Sample) (attrs : UAttributes) : UMessage :=
  ⟨some ⟨s.payload, UPayloadType.VALUE⟩, some attrs⟩

/-- The Result Message a channel entry would populate, `none` when the entry
is a transport error or fails validation. -/
def entryMessage : ReplyEntry → Option UMessage
  | .err => none
  | .ok s => (acceptSample s).map (sampleMessage s)

/-- The `while` loop of `handleReply`: each iteration calls `recv`; a
transport error or a malformed sample breaks out; an accepted sample
overwrites `message`, drops the reply and continues with the next entry.
Returns the final `message` and the action trace. -/
def handleReplyLoop : List ReplyEntry → UMessage → UMessage × List Act
  | [], m => (m, [.callRecv])
  | .err :: _, m => (m, [.callRecv])
  | .ok s :: rest, m =>
      match acceptSample s with
      | none => (m, [.callRecv])
      | some attrs =>
          let r := handleReplyLoop rest (sampleMessage s attrs)
          (r.1, .callRecv :: .dropReply :: r.2)

/-- `ZenohRpcClient::handleReply`: run the loop on the channel's entries
starting from a default message, then drop and free the channel (lines
254–256) on every path. -/
def handleReply (channel : List ReplyEntry) : UMessage × List Act :=
  let r := handleReplyLoop channel defaultUMessage
  (r.1, r.2 ++ [.dropChannel, .freeChannel])

/-! ## Lifecycle manager (`ZenohRpcClient::init` / `ZenohRpcClient::term`)

The singleton's mutable state is its reference count and the two owned
resources.  The count is declared in the class header (outside `src/`) as an
atomic counter; it is modelled as an unbounded `Int` so that the unconditional
decrement's effect at zero is visible.  Outcomes of the external session
manager and of thread-pool construction enter as boolean parameters. -/

/-- Status codes returned by the lifecycle operations (up-core-api `UCode`). -/
inductive UCode
  | OK | UNAVAILABLE | INTERNAL
  deriving DecidableEq, Repr

/-- The singleton's lifecycle state: reference count, whether the Zenoh
session manager is initialized, whether `session_` holds a session, and
whether the thread pool (executor) is constructed. -/
structure RpcState where
  refCount : Int
  sessionUp : Bool
  sessionSet : Bool
  poolUp : Bool
  deriving DecidableEq, Repr

/-- The state before any `init`: count 0, no resources. -/
def freshState : RpcState := ⟨0, false, false, false⟩

/-- `ZenohRpcClient::init` (lines 50–91).  When the count is 0 it initializes
the session manager, copies out the session, and constructs the thread pool —
returning `UNAVAILABLE` before the final `fetch_add` if any step fails —
otherwise it just increments the count.  The three booleans are the outcomes
of `ZenohSessionManager::init`, `getSession().has_value()` and thread-pool
construction.  (The sequential model collapses the double-checked re-read of
the count, which cannot differ here.) -/
def init (s : RpcState) (sessionInitOk hasValue poolOk : Bool) : UCode × RpcState :=
  if s.refCount = 0 then
    if ¬ sessionInitOk then (.UNAVAILABLE, s)
    else
      let s1 := { s with sessionUp := true }
      if ¬ hasValue then (.UNAVAILABLE, s1)
      else
        let s2 := { s1 with sessionSet := true }
        if ¬ poolOk then (.UNAVAILABLE, s2)
        else (.OK, { s2 with poolUp := true, refCount := s.refCount + 1 })
  else (.OK, { s with refCount := s.refCount + 1 })

/-- `ZenohRpcClient::term` (lines 93–113): unconditionally decrement the
count; when it reaches 0, ask the session manager to tear down the session
(`UNAVAILABLE` if that fails).  The thread pool is not touched. -/
def term (s : RpcState) (sessionTermOk : Bool) : UCode × RpcState :=
  let s1 := { s with refCount := s.refCount - 1 }
  if s1.refCount = 0 then
    if ¬ sessionTermOk then (.UNAVAILABLE, s1)
    else (.OK, { s1 with sessionUp := false, sessionSet := false })
  else (.OK, s1)

/-- `n` successful `init` calls in sequence. -/
def initN : Nat → RpcState → RpcState
  | 0, s => s
  | n + 1, s => initN n (init s true true true).2

/-- `n` successful `term` calls in sequence. -/
def termN : Nat → RpcState → RpcState
  | 0, s => s
  | n + 1, s => termN n (term s true).2

/-! ## Invocation dispatcher (`ZenohRpcClient::invokeMethod`)

External collaborators are modelled by concrete executable stand-ins: the
long-form URI serializer and the RPC-resource check from up-cpp, and
`std::hash<std::string>` (implementation-defined; only its determinism and
its domain — the serialized URI — matter to the claims). -/

/-- A uProtocol resource (the part of a `UUri` that `isRPCMethod` inspects). -/
structure UResource where
  name : String
  instanceName : String
  deriving DecidableEq, Repr

/-- A uProtocol URI, the target of an invocation. -/
structure UUri where
  authority : String
  entity : String
  resource : UResource
  deriving DecidableEq, Repr

/-- Modelled from the spec: the up-cpp check that `resource` identifies an
RPC-style endpoint ("`resource` does not identify an RPC-style endpoint →
reject"); up-cpp marks RPC method resources with the reserved name `rpc`. -/
def isRPCMethod (r : UResource) : Bool := r.name = "rpc"

/-- Modelled from the spec: up-cpp `LongUriSerializer::serialize`, the
canonical serialized form of the target resource.  Only its determinism (a
pure function of the URI) is used by the claims. -/
def longUriSerialize (u : UUri) : String :=
  "/" ++ u.authority ++ "/" ++ u.entity ++ "/" ++ u.resource.name ++ "." ++
    u.resource.instanceName

/-- Model of `std::hash<std::string>`: implementation-defined but a fixed
deterministic function per process; modelled as 64-bit FNV-1a over the
string's characters. -/
def stdHashString (s : String) : Nat :=
  s.data.foldl (fun h c => ((h ^^^ c.toNat) * 1099511628211) % (2 ^ 64))
    14695981039346656037

/-- Per-call options (up-cpp `CallOptions`): priority and optional ttl. -/
structure CallOptions where
  priority : UPriority
  ttl : Option Nat
  deriving DecidableEq, Repr

/-- The default request timeout `requestTimeoutMs_`, declared in the class
header (outside `src/`); no claim depends on its value. -/
def requestTimeoutMs : Nat := 5000

/-- The Metadata Record `invokeMethod` builds (lines 144–155):
`UAttributesBuilder(uuid, UMESSAGE_TYPE_REQUEST, UPRIORITY_CS0)`, then
`setTTL` when the options carry one, then `setPriority(options.priority())`. -/
def buildAttributes (uuid : Nat) (opts : CallOptions) : UAttributes :=
  ⟨uuid, .REQUEST, opts.priority, opts.ttl⟩

/-- The one-shot query `z_get` issues: key expression (the transport-level
subject), the built Metadata Record and its serialized form attached under
`"attributes"`, the in-band payload, and the timeout. -/
structure QueryInfo where
  keyexpr : String
  attrs : UAttributes
  attachment : List (String × List Nat)
  payload : List Nat
  timeoutMs : Nat
  deriving DecidableEq, Repr

/-- Observable outcome of `invokeMethod`: the returned future (`none` models
the default-constructed, invalid `std::future`; `some q` a future backed by a
submitted collector task for query `q`), whether `z_get` was called, whether
a reply channel was allocated (`new z_owned_reply_channel_t` +
`zc_reply_fifo_new(16)`), and whether the failure path `delete channel` ran
on a non-null channel. -/
structure InvokeResult where
  future : Option QueryInfo
  zGetCalled : Bool
  channelCreated : Bool
  channelDeleted : Bool
  deriving DecidableEq, Repr

/-- An `InvokeResult` for the precondition-rejection paths: the default
future is returned before any transport interaction. -/
def rejected : InvokeResult := ⟨none, false, false, false⟩

/-- `ZenohRpcClient::invokeMethod` (lines 115–206).  Rejections in source
order: count 0, non-RPC resource, priority below `UPRIORITY_CS4`.  Then the
request is built; `serializeOk` is the outcome of protobuf
`SerializeToArray` (break before the channel exists), `zGetOk` the outcome of
`z_get` (break after, so the channel is deleted).  On success the collector
task is submitted and its future returned. -/
def invokeMethod (st : RpcState) (topic : UUri) (payload : List Nat)
    (opts : CallOptions) (uuid : Nat) (serializeOk zGetOk : Bool) : InvokeResult :=
  if st.refCount = 0 then rejected
  else if ¬ isRPCMethod topic.resource then rejected
  else if opts.priority.toNat < UPriority.CS4.toNat then rejected
  else
    let uriHash := stdHashString (longUriSerialize topic)
    let attrs := buildAttributes uuid opts
    let timeout := match opts.ttl with
      | some t => t
      | none => requestTimeoutMs
    if ¬ serializeOk then rejected
    else
      let attachment := [("attributes", serializeAttributes attrs)]
      if ¬ zGetOk then ⟨none, true, true, true⟩
      else ⟨some ⟨toString uriHash, attrs, attachment, payload, timeout⟩, true, true, false⟩


/-- The query a successful dispatch issues (the value `invokeMethod`
constructs in its success path; see `invokeMethod_dispatch`). -/
def dispatchedQuery (topic : UUri) (payload : List Nat) (opts : CallOptions)
    (uuid : Nat) : QueryInfo :=
  ⟨toString (stdHashString (longUriSerialize topic)), buildAttributes uuid opts,
    [("attributes", serializeAttributes (buildAttributes uuid opts))], payload,
    match opts.ttl with
    | some t => t
    | none => requestTimeoutMs⟩

/-- A well-formed reply attribute record with unique id `i`, as a responder
echoing the request metadata would produce it; used in concrete scenarios. -/
def attrsWith (i : Nat) : UAttributes := ⟨i, .REQUEST, .CS4, none⟩

/-- A well-formed reply sample: non-empty payload `pl` and an attachment
carrying the serialized `attrsWith i`; used in concrete scenarios. -/
def sampleWith (pl : List Nat) (i : Nat) : Sample :=
  ⟨pl, some [("attributes", serializeAttributes (attrsWith i))]⟩

/-! ## Helper lemmas -/

theorem priority_fromNat_toNat (p : UPriority) : UPriority.fromNat p.toNat = some p := by
  cases p <;> rfl
theorem msgType_fromNat_toNat (t : UMessageType) : UMessageType.fromNat t.toNat = some t := by
  cases t <;> rfl
theorem bytesToNat_natToBytesAux : ∀ (fuel n : Nat), n ≤ fuel →
    bytesToNat (natToBytesAux fuel n) = n := by
  intro fuel
  induction fuel with
  | zero => intro n h; interval_cases n; rfl
  | succ f ih =>
    intro n h
    by_cases hn : n = 0
    · simp [natToBytesAux, hn, bytesToNat]
    · have hpos : 0 < n := Nat.pos_of_ne_zero hn
      have hdiv : n / 256 ≤ f := by
        have h1 : n / 256 < n := Nat.div_lt_self hpos (by norm_num)
        omega
      simp only [natToBytesAux, hn, if_false, bytesToNat]
      rw [ih (n / 256) hdiv]
      omega
theorem bytesToNat_natToBytes (n : Nat) : bytesToNat (natToBytes n) = n :=
  bytesToNat_natToBytesAux n n (Nat.le_refl n)
theorem parseAttributes_serializeAttributes (a : UAttributes) :
    parseAttributes (serializeAttributes a) = some a := by
  obtain ⟨i, t, p, ttl⟩ := a
  cases ttl with
  | none =>
      simp only [serializeAttributes, parseAttributes, priority_fromNat_toNat,
        msgType_fromNat_toNat, bytesToNat_natToBytes]
  | some v =>
      simp only [serializeAttributes, parseAttributes, priority_fromNat_toNat,
        msgType_fromNat_toNat, List.take_left, List.drop_left,
        bytesToNat_natToBytes]

theorem mem_handleReplyLoop_trace : ∀ (ch : List ReplyEntry) (m : UMessage)
    (a : Act), a ∈ (handleReplyLoop ch m).2 → a = Act.callRecv ∨ a = Act.dropReply
  | [], _, a, h => by
      simp [handleReplyLoop] at h
      exact Or.inl h
  | .err :: _, _, a, h => by
      simp [handleReplyLoop] at h
      exact Or.inl h
  | .ok s :: rest, m, a, h => by
      simp only [handleReplyLoop] at h
      cases hacc : acceptSample s with
      | none => rw [hacc] at h; simp at h; exact Or.inl h
      | some attrs =>
          rw [hacc] at h
          simp only [List.mem_cons] at h
          rcases h with h | h | h
          · exact Or.inl h
          · exact Or.inr h
          · exact mem_handleReplyLoop_trace rest (sampleMessage s attrs) a h


/-! ## Claim C9 — Metadata Record round-trip -/

/-- Claim C9: serializing a Metadata Record to bytes and then deserializing
those bytes yields a record equal to the original, for every valid field
combination — every priority class, every message type, time-to-live present
or absent, and every unique id. -/
theorem metadata_record_roundtrip (a : UAttributes) :
    parseAttributes (serializeAttributes a) = some a :=
  parseAttributes_serializeAttributes a

/-! ## Claim C2 — low-priority calls are rejected before any transport work -/

/-- Claim C2: for every priority value strictly below the high-priority floor
`UPRIORITY_CS4`, `invokeMethod` returns the default (already
failed/empty) future without calling `z_get` and without creating a reply
channel — whatever the lifecycle state, topic, payload, uuid, and external
outcomes. -/
theorem invoke_low_priority_no_query (st : RpcState) (topic : UUri)
    (payload : List Nat) (opts : CallOptions) (uuid : Nat) (serOk zOk : Bool)
    (h : opts.priority.toNat < UPriority.CS4.toNat) :
    (invokeMethod st topic payload opts uuid serOk zOk).future = none ∧
    (invokeMethod st topic payload opts uuid serOk zOk).zGetCalled = false ∧
    (invokeMethod st topic payload opts uuid serOk zOk).channelCreated = false := by
  unfold invokeMethod
  split_ifs <;> simp_all [rejected]

/-- Witness for C2 at priority `CS0` on an otherwise dispatchable call. -/
theorem invoke_low_priority_no_query_witness :
    (invokeMethod ⟨1, true, true, true⟩ ⟨"vcu", "body", ⟨"rpc", "door"⟩⟩ [7]
        ⟨.CS0, none⟩ 42 true true).future = none ∧
    (invokeMethod ⟨1, true, true, true⟩ ⟨"vcu", "body", ⟨"rpc", "door"⟩⟩ [7]
        ⟨.CS0, none⟩ 42 true true).zGetCalled = false ∧
    (invokeMethod ⟨1, true, true, true⟩ ⟨"vcu", "body", ⟨"rpc", "door"⟩⟩ [7]
        ⟨.CS0, none⟩ 42 true true).channelCreated = false :=
  invoke_low_priority_no_query ⟨1, true, true, true⟩
    ⟨"vcu", "body", ⟨"rpc", "door"⟩⟩ [7] ⟨.CS0, none⟩ 42 true true (by decide)

/-! ## Claim C6 — a failed `init` returns Unavailable and leaves the count at 0 -/

/-- Claim C6: if, with the reference count at 0, initialization of the
session (manager init fails or no session value) or of the executor fails,
`init` returns `UNAVAILABLE` and the reference count is unchanged (stays 0). -/
theorem failed_init_leaves_count (s : RpcState) (a b c : Bool)
    (h0 : s.refCount = 0) (hf : a = false ∨ b = false ∨ c = false) :
    (init s a b c).1 = UCode.UNAVAILABLE ∧ (init s a b c).2.refCount = 0 := by
  cases a <;> cases b <;> cases c <;> simp_all [init]

/-- Witness for C6: from the fresh state, session-manager failure. -/
theorem failed_init_leaves_count_witness :
    (init freshState false true true).1 = UCode.UNAVAILABLE ∧
    (init freshState false true true).2.refCount = 0 :=
  failed_init_leaves_count freshState false true true (by decide) (Or.inl rfl)

/-! ## Claim C4 — `handleReply` always releases the channel exactly once -/

/-- Claim C4: on every outcome — populated result, early break on a
malformed or error entry, or channel exhaustion — `handleReply` drops
(`z_drop`) and frees (`delete`) the channel exactly once. -/
theorem handleReply_releases_channel (channel : List ReplyEntry) :
    ((handleReply channel).2.count Act.dropChannel = 1) ∧
    ((handleReply channel).2.count Act.freeChannel = 1) := by
  have hloop : ∀ a, a ∈ (handleReplyLoop channel defaultUMessage).2 →
      a = Act.callRecv ∨ a = Act.dropReply :=
    mem_handleReplyLoop_trace channel defaultUMessage
  have h1 : (handleReplyLoop channel defaultUMessage).2.count Act.dropChannel = 0 := by
    rw [List.count_eq_zero]
    intro hmem
    rcases hloop _ hmem with h | h <;> exact absurd h (by decide)
  have h2 : (handleReplyLoop channel defaultUMessage).2.count Act.freeChannel = 0 := by
    rw [List.count_eq_zero]
    intro hmem
    rcases hloop _ hmem with h | h <;> exact absurd h (by decide)
  unfold handleReply
  constructor <;> simp [List.count_append, h1, h2]

/-! ## Claim C5 — malformed replies resolve to an empty Result Message -/

theorem acceptSample_eq_none_of_malformed (s : Sample)
    (h : s.payload = [] ∨ s.attachment = none ∨
      (∃ att, s.attachment = some att ∧ att.lookup "attributes" = none) ∨
      (∃ att bytes, s.attachment = some att ∧
        att.lookup "attributes" = some bytes ∧ parseAttributes bytes = none)) :
    acceptSample s = none := by
  unfold acceptSample
  rcases h with h | h | ⟨att, ha, hl⟩ | ⟨att, bytes, ha, hl, hp⟩
  · simp [h]
  · simp [h]
  · simp [ha, hl]
  · by_cases hb : bytes = [] <;> simp [ha, hl, hb, hp]

/-- Claim C5: a first reply entry that is malformed — empty payload, missing
out-of-band attachment, attachment lacking the `"attributes"` key, or
attribute bytes that fail to deserialize (which subsumes zero-length bytes) —
makes the call resolve to the empty/default Result Message; `handleReply` is
a total function, so no exception or distinct error reaches the caller. -/
theorem malformed_reply_default_message (s : Sample) (rest : List ReplyEntry)
    (h : s.payload = [] ∨ s.attachment = none ∨
      (∃ att, s.attachment = some att ∧ att.lookup "attributes" = none) ∨
      (∃ att bytes, s.attachment = some att ∧
        att.lookup "attributes" = some bytes ∧ parseAttributes bytes = none)) :
    (handleReply (ReplyEntry.ok s :: rest)).1 = defaultUMessage := by
  have hn := acceptSample_eq_none_of_malformed s h
  simp [handleReply, handleReplyLoop, hn]

/-- Witness for C5: a reply with non-empty payload but no attachment (the
spec's own example) resolves to the default message. -/
theorem malformed_reply_default_message_witness :
    (handleReply [ReplyEntry.ok ⟨[1], none⟩]).1 = defaultUMessage :=
  malformed_reply_default_message ⟨[1], none⟩ [] (Or.inr (Or.inl rfl))

theorem invokeMethod_dispatch (st : RpcState) (topic : UUri)
    (payload : List Nat) (opts : CallOptions) (uuid : Nat)
    (h0 : ¬ st.refCount = 0) (hr : isRPCMethod topic.resource = true)
    (hp : ¬ opts.priority.toNat < UPriority.CS4.toNat) :
    (invokeMethod st topic payload opts uuid true true).future =
      some (dispatchedQuery topic payload opts uuid) := by
  simp [invokeMethod, dispatchedQuery, h0, hr, hp]

/-! ## Claim C7 — correlation key from the resource, unique id per call -/

/-- Claim C7: the transport-level subject is the decimal string of the hash
of the canonical serialized resource — deterministic in the resource, not in
the call's unique id: two dispatched calls to the same resource issue queries
with the same key expression while their Metadata Records carry the two
distinct unique call ids. -/
theorem same_resource_same_subject_distinct_ids (st : RpcState) (topic : UUri)
    (payload1 payload2 : List Nat) (opts1 opts2 : CallOptions) (u1 u2 : Nat)
    (h0 : ¬ st.refCount = 0) (hr : isRPCMethod topic.resource = true)
    (hp1 : ¬ opts1.priority.toNat < UPriority.CS4.toNat)
    (hp2 : ¬ opts2.priority.toNat < UPriority.CS4.toNat)
    (hu : u1 ≠ u2) :
    ∃ q1 q2,
      (invokeMethod st topic payload1 opts1 u1 true true).future = some q1 ∧
      (invokeMethod st topic payload2 opts2 u2 true true).future = some q2 ∧
      q1.keyexpr = toString (stdHashString (longUriSerialize topic)) ∧
      q2.keyexpr = q1.keyexpr ∧
      q1.attrs.id = u1 ∧ q2.attrs.id = u2 ∧ q1.attrs.id ≠ q2.attrs.id := by
  refine ⟨dispatchedQuery topic payload1 opts1 u1,
    dispatchedQuery topic payload2 opts2 u2,
    invokeMethod_dispatch st topic payload1 opts1 u1 h0 hr hp1,
    invokeMethod_dispatch st topic payload2 opts2 u2 h0 hr hp2,
    rfl, rfl, rfl, rfl, ?_⟩
  simpa [dispatchedQuery, buildAttributes] using hu

/-- Witness for C7: two calls to the same RPC resource with ids 10 and 20. -/
theorem same_resource_same_subject_distinct_ids_witness :
    ∃ q1 q2,
      (invokeMethod ⟨1, true, true, true⟩ ⟨"vcu", "body", ⟨"rpc", "door"⟩⟩ []
          ⟨.CS4, none⟩ 10 true true).future = some q1 ∧
      (invokeMethod ⟨1, true, true, true⟩ ⟨"vcu", "body", ⟨"rpc", "door"⟩⟩ [5]
          ⟨.CS5, some 200⟩ 20 true true).future = some q2 ∧
      q1.keyexpr = toString (stdHashString
        (longUriSerialize ⟨"vcu", "body", ⟨"rpc", "door"⟩⟩)) ∧
      q2.keyexpr = q1.keyexpr ∧
      q1.attrs.id = 10 ∧ q2.attrs.id = 20 ∧ q1.attrs.id ≠ q2.attrs.id :=
  same_resource_same_subject_distinct_ids ⟨1, true, true, true⟩
    ⟨"vcu", "body", ⟨"rpc", "door"⟩⟩ [] [5] ⟨.CS4, none⟩ ⟨.CS5, some 200⟩ 10 20
    (by decide) (by decide) (by decide) (by decide) (by decide)

/-! ## Claim C1 — the per-entry loop does not stop at the first accepted reply

The loop body has no break on the success path: after populating `message`
it drops the reply and iterates again, so a second valid entry is consumed
and overwrites the first.  The claim is refuted at a concrete two-entry
channel and the amended behaviour is proved in general. -/

/-- Counterexample to C1 as stated: a channel with two valid replies.  The
returned Result Message comes from the second entry, not the first, and
`recv` is called three times (both entries plus the exhaustion check) rather
than stopping at the first accepted reply. -/
theorem handleReply_returns_last_not_first :
    (handleReply [ReplyEntry.ok (sampleWith [1] 1),
        ReplyEntry.ok (sampleWith [2] 2)]).1
      = sampleMessage (sampleWith [2] 2) (attrsWith 2) ∧
    (handleReply [ReplyEntry.ok (sampleWith [1] 1),
        ReplyEntry.ok (sampleWith [2] 2)]).1
      ≠ sampleMessage (sampleWith [1] 1) (attrsWith 1) ∧
    (handleReply [ReplyEntry.ok (sampleWith [1] 1),
        ReplyEntry.ok (sampleWith [2] 2)]).2.count Act.callRecv = 3 := by
  decide

theorem handleReplyLoop_all_valid : ∀ (pre : List ReplyEntry) (e : ReplyEntry)
    (m : UMessage), (∀ x ∈ pre ++ [e], (entryMessage x).isSome = true) →
    (handleReplyLoop (pre ++ [e]) m).1 = (entryMessage e).getD defaultUMessage ∧
    (handleReplyLoop (pre ++ [e]) m).2.count Act.callRecv = pre.length + 2
  | [], e, m, hv => by
      have he := hv e (by simp)
      cases e with
      | err => simp [entryMessage] at he
      | ok s =>
          cases hacc : acceptSample s with
          | none => simp [entryMessage, hacc] at he
          | some attrs =>
              constructor
              · simp [handleReplyLoop, hacc, entryMessage]
              · simp [handleReplyLoop, hacc, List.count_cons]
  | x :: pre, e, m, hv => by
      have hx := hv x (by simp)
      cases x with
      | err => simp [entryMessage] at hx
      | ok s =>
          cases hacc : acceptSample s with
          | none => simp [entryMessage, hacc] at hx
          | some attrs =>
              have ih := handleReplyLoop_all_valid pre e (sampleMessage s attrs)
                (fun y hy => hv y (by simp [hy]))
              simp only [List.cons_append, handleReplyLoop, hacc]
              refine ⟨ih.1, ?_⟩
              simp [List.count_cons, ih.2]

/-- Claim C1 (amended): `handleReply` does not stop at the first accepted
reply — on a channel all of whose entries are valid replies it consumes every
entry (one `recv` call per entry plus the final exhaustion check) and returns
the Result Message populated from the LAST entry. -/
theorem handleReply_all_valid_last_wins (pre : List ReplyEntry) (e : ReplyEntry)
    (hv : ∀ x ∈ pre ++ [e], (entryMessage x).isSome = true) :
    (handleReply (pre ++ [e])).1 = (entryMessage e).getD defaultUMessage ∧
    (handleReply (pre ++ [e])).2.count Act.callRecv = pre.length + 2 := by
  have hl := handleReplyLoop_all_valid pre e defaultUMessage hv
  unfold handleReply
  refine ⟨hl.1, ?_⟩
  have h0 : ([Act.dropChannel, Act.freeChannel].count Act.callRecv) = 0 := by decide
  simp only [List.count_append, hl.2, h0]

/-- Witness for the amended C1 at a concrete channel of two valid replies:
the second entry's message is returned after three `recv` calls. -/
theorem handleReply_all_valid_last_wins_witness :
    (handleReply ([ReplyEntry.ok (sampleWith [3] 7)] ++
        [ReplyEntry.ok (sampleWith [4] 8)])).1
      = (entryMessage (ReplyEntry.ok (sampleWith [4] 8))).getD defaultUMessage ∧
    (handleReply ([ReplyEntry.ok (sampleWith [3] 7)] ++
        [ReplyEntry.ok (sampleWith [4] 8)])).2.count Act.callRecv = 1 + 2 :=
  handleReply_all_valid_last_wins [ReplyEntry.ok (sampleWith [3] 7)]
    (ReplyEntry.ok (sampleWith [4] 8)) (by decide)

/-! ## Claim C10 — an accepted reply is retained on a later bad entry,
overwritten by a later valid entry -/

/-- Claim C10: once a valid reply has been accepted, a subsequent
transport-error or malformed entry terminates the loop but leaves the
already-populated Result Message intact, whereas a subsequent valid entry
overwrites it, so the last valid entry wins. -/
theorem accepted_reply_retained_or_overwritten (s : Sample) (attrs : UAttributes)
    (h : acceptSample s = some attrs) :
    (∀ e, entryMessage e = none → ∀ rest,
      (handleReply (ReplyEntry.ok s :: e :: rest)).1 = sampleMessage s attrs) ∧
    (∀ s2 a2, acceptSample s2 = some a2 →
      (handleReply [ReplyEntry.ok s, ReplyEntry.ok s2]).1 = sampleMessage s2 a2) := by
  constructor
  · intro e he rest
    cases e with
    | err => simp [handleReply, handleReplyLoop, h, sampleMessage]
    | ok s' =>
        have hn : acceptSample s' = none := by
          simpa [entryMessage] using he
        simp [handleReply, handleReplyLoop, h, hn, sampleMessage]
  · intro s2 a2 h2
    simp [handleReply, handleReplyLoop, h, h2, sampleMessage]

/-- Witness for C10: a valid reply followed by a transport error keeps the
first message; a valid reply followed by another valid reply yields the
second one. -/
theorem accepted_reply_retained_or_overwritten_witness :
    (handleReply [ReplyEntry.ok (sampleWith [9] 5), ReplyEntry.err]).1
      = sampleMessage (sampleWith [9] 5) (attrsWith 5) ∧
    (handleReply [ReplyEntry.ok (sampleWith [9] 5),
        ReplyEntry.ok (sampleWith [6] 11)]).1
      = sampleMessage (sampleWith [6] 11) (attrsWith 11) :=
  ⟨(accepted_reply_retained_or_overwritten (sampleWith [9] 5) (attrsWith 5)
      (by decide)).1 ReplyEntry.err (by decide) [],
   (accepted_reply_retained_or_overwritten (sampleWith [9] 5) (attrsWith 5)
      (by decide)).2 (sampleWith [6] 11) (attrsWith 11) (by decide)⟩

/-! ## Claims C3 and C8 — lifecycle reference counting and teardown

`term` decrements the count unconditionally, so an unbalanced release at
count 0 drives the count negative (refuting the final part of C3), and the
teardown branch releases only the session — the thread pool is never torn
down (refuting C8). -/

theorem initN_pos : ∀ (n : Nat) (k : Int), 1 ≤ k →
    initN n ⟨k, true, true, true⟩ = ⟨k + n, true, true, true⟩
  | 0, k, _ => by simp [initN]
  | n + 1, k, hk => by
      have hk0 : ¬ (k = 0) := by omega
      have hstep : (init ⟨k, true, true, true⟩ true true true).2
          = ⟨k + 1, true, true, true⟩ := by
        simp [init, hk0]
      have ih := initN_pos n (k + 1) (by omega)
      simp only [initN, hstep, ih]
      congr 1
      push_cast
      ring

theorem initN_fresh (n : Nat) (h : 1 ≤ n) :
    initN n freshState = ⟨(n : Int), true, true, true⟩ := by
  cases n with
  | zero => omega
  | succ m =>
      have hstep : (init freshState true true true).2 = ⟨1, true, true, true⟩ := by
        simp [init, freshState]
      have := initN_pos m 1 (by omega)
      simp only [initN, hstep, this]
      congr 1
      push_cast
      ring

theorem termN_pos : ∀ (k : Nat) (m : Int), (k : Int) < m →
    termN k ⟨m, true, true, true⟩ = ⟨m - k, true, true, true⟩
  | 0, m, _ => by simp [termN]
  | k + 1, m, hk => by
      have hm : ¬ (m - 1 = 0) := by push_cast at hk; omega
      have hstep : (term ⟨m, true, true, true⟩ true).2
          = ⟨m - 1, true, true, true⟩ := by
        simp [term, hm]
      have ih := termN_pos k (m - 1) (by push_cast at hk ⊢; omega)
      simp only [termN, hstep, ih]
      congr 1
      push_cast
      ring

/-- Claim C3 (amended): `acquire` (`init`) called N ≥ 1 times followed by
`release` (`term`) called N−1 times leaves the system initialized with count
1, and the count stays ≥ 1 throughout; the Nth `term` tears the session down
and brings the count to 0.  However `term` does not guard the zero case: a
release with the count already at 0 decrements it to −1, so the count CAN go
negative on an unbalanced release. -/
theorem lifecycle_balanced_refcount (n : Nat) (h : 1 ≤ n) :
    (termN (n - 1) (initN n freshState)).refCount = 1 ∧
    (termN (n - 1) (initN n freshState)).sessionUp = true ∧
    (term (termN (n - 1) (initN n freshState)) true).2.refCount = 0 ∧
    (term (termN (n - 1) (initN n freshState)) true).2.sessionUp = false ∧
    (∀ k, k ≤ n - 1 → 1 ≤ (termN k (initN n freshState)).refCount) := by
  have hi := initN_fresh n h
  have hcast : ((n - 1 : Nat) : Int) < (n : Int) := by omega
  have ht := termN_pos (n - 1) (n : Int) hcast
  have hone : ((n : Int) - ((n - 1 : Nat) : Int)) = 1 := by omega
  rw [hi, ht, hone]
  refine ⟨rfl, rfl, by decide, by decide, ?_⟩
  intro k hk
  have hklt : ((k : Nat) : Int) < (n : Int) := by omega
  rw [termN_pos k (n : Int) hklt]
  simp only []
  omega

/-- Counterexample to C3 as stated: a `release` with the count already at 0
decrements it to −1 — the reference count does go negative. -/
theorem release_at_zero_goes_negative :
    (term freshState true).1 = UCode.OK ∧
    (term freshState true).2.refCount = -1 ∧
    (term freshState true).2.refCount < 0 := by
  decide

/-- Witness for the amended C3 at N = 3. -/
theorem lifecycle_balanced_refcount_witness :
    (termN 2 (initN 3 freshState)).refCount = 1 ∧
    (termN 2 (initN 3 freshState)).sessionUp = true ∧
    (term (termN 2 (initN 3 freshState)) true).2.refCount = 0 ∧
    (term (termN 2 (initN 3 freshState)) true).2.sessionUp = false ∧
    (∀ k, k ≤ 2 → 1 ≤ (termN k (initN 3 freshState)).refCount) :=
  lifecycle_balanced_refcount 3 (by decide)

/-- Counterexample to C8 as stated: the release that brings the count from 1
to 0 tears down the session but leaves the executor (thread pool)
constructed — it does not tear down both owned resources. -/
theorem final_release_leaves_executor :
    (term ⟨1, true, true, true⟩ true).2.sessionUp = false ∧
    (term ⟨1, true, true, true⟩ true).2.poolUp = true := by
  decide

/-- Claim C8 (amended): the `term` that brings the reference count to 0
tears down only the Session Handle (session manager term plus the stored
session); the executor (thread pool) is left untouched. -/
theorem final_release_session_only (s : RpcState) (h : s.refCount = 1) :
    (term s true).1 = UCode.OK ∧ (term s true).2.sessionUp = false ∧
    (term s true).2.sessionSet = false ∧ (term s true).2.poolUp = s.poolUp := by
  simp [term, h]

/-- Witness for the amended C8. -/
theorem final_release_session_only_witness :
    (term ⟨1, false, false, true⟩ true).1 = UCode.OK ∧
    (term ⟨1, false, false, true⟩ true).2.sessionUp = false ∧
    (term ⟨1, false, false, true⟩ true).2.sessionSet = false ∧
    (term ⟨1, false, false, true⟩ true).2.poolUp = (⟨1, false, false, true⟩ : RpcState).poolUp :=
  final_release_session_only ⟨1, false, false, true⟩ (by decide)

end ZenohRpc
